import Mathlib

/-!
Verification of the `study_langchain` repository: a shallow embedding of the
pure data-handling parts of its scripts (pydantic record validation, the local
sentiment parser, the parallel/sequential text statistics example, LangGraph
workflow topologies, formatters and entry-point control flow), with theorems
checking the repository's specification against these embeddings.

Python `float` values are modelled as rationals (`ℚ`); Python strings as Lean
`String`; Python dicts used as LangGraph state updates as association lists.
-/

namespace StudyLangchain

/-- Python `str.split()` with no arguments: split on runs of whitespace,
discarding empty fragments. -/
def pySplit (s : String) : List String :=
  (s.split Char.isWhitespace).filter (fun w => w ≠ "")

/-- Python `str.lower()` (ASCII model). -/
def pyLower (s : String) : String := s.toLower

/-- Python `str.upper()` (ASCII model). -/
def pyUpper (s : String) : String := s.toUpper

/-- Python `needle in hay` on strings: substring containment, as a
decidable proposition on the underlying character lists. -/
def strContains (hay needle : String) : Bool :=
  decide (needle.toList <:+: hay.toList)

/-- Python `s[::-1]`: string reversal. -/
def pyReverse (s : String) : String := ⟨s.toList.reverse⟩

/-! ## `learning/02_advanced/output_parsers/advanced_output_parsers.py`

The `SentimentAnalysis` pydantic model: six required fields, with
`confidence_score` constrained by `ge=0.0, le=1.0` and re-checked by the
`validate_confidence` validator.  Pydantic raises a `ValidationError` when a
required field is absent from the reply or a constraint fails; we embed
construction from a raw (optional-field) model reply as an `Except`. -/

/-- The validated `SentimentAnalysis` record. -/
structure SentimentAnalysis where
  text : String
  is_positive : Bool
  is_negative : Bool
  is_neutral : Bool
  contains_urgency : Bool
  confidence_score : ℚ
deriving Repr, DecidableEq

/-- A raw model reply for `SentimentAnalysis`: each declared field either
present with a value of its declared type, or missing. -/
structure SentimentReply where
  text : Option String
  is_positive : Option Bool
  is_negative : Option Bool
  is_neutral : Option Bool
  contains_urgency : Option Bool
  confidence_score : Option ℚ
deriving Repr, DecidableEq

/-- Pydantic construction of `SentimentAnalysis` from a raw reply: every
field is required, and `confidence_score` must satisfy `ge=0.0, le=1.0`
(the field constraint and the `validate_confidence` validator coincide). -/
def SentimentAnalysis.validate (r : SentimentReply) :
    Except String SentimentAnalysis :=
  match r.text, r.is_positive, r.is_negative, r.is_neutral,
      r.contains_urgency, r.confidence_score with
  | some t, some p, some n, some u, some g, some c =>
      if 0 ≤ c ∧ c ≤ 1 then
        .ok ⟨t, p, n, u, g, c⟩
      else
        .error "Confianca deve estar entre 0 e 1"
  | _, _, _, _, _, _ => .error "Field required"

/-- A reply violates the declared `SentimentAnalysis` schema when a required
field is missing or `confidence_score` lies outside `[0, 1]`. -/
def SentimentReply.violatesSchema (r : SentimentReply) : Prop :=
  r.text = none ∨ r.is_positive = none ∨ r.is_negative = none ∨
  r.is_neutral = none ∨ r.contains_urgency = none ∨
  r.confidence_score = none ∨
  (∃ c, r.confidence_score = some c ∧ ¬ (0 ≤ c ∧ c ≤ 1))

instance (r : SentimentReply) : Decidable r.violatesSchema := by
  unfold SentimentReply.violatesSchema
  have : Decidable (∃ c, r.confidence_score = some c ∧ ¬ (0 ≤ c ∧ c ≤ 1)) := by
    cases h : r.confidence_score with
    | none => exact .isFalse (by simp [h])
    | some c => exact decidable_of_iff (¬ (0 ≤ c ∧ c ≤ 1)) (by simp [h])
  exact inferInstance

/-! ### `projects/sentiment_analyzer/src/analisador_de_sentimento.py`

The `AnaliseTexto` pydantic model: four required fields, with
`confianca` constrained by `ge=0, le=1`. -/

/-- The validated `AnaliseTexto` record. -/
structure AnaliseTexto where
  sentimento : String
  confianca : ℚ
  palavras_chave : List String
  resumo : String
deriving Repr, DecidableEq

/-- A raw model reply for `AnaliseTexto`. -/
structure AnaliseReply where
  sentimento : Option String
  confianca : Option ℚ
  palavras_chave : Option (List String)
  resumo : Option String
deriving Repr, DecidableEq

/-- Pydantic construction of `AnaliseTexto` from a raw reply: every field is
required and `confianca` must satisfy `ge=0, le=1`. -/
def AnaliseTexto.validate (r : AnaliseReply) : Except String AnaliseTexto :=
  match r.sentimento, r.confianca, r.palavras_chave, r.resumo with
  | some s, some c, some p, some re =>
      if 0 ≤ c ∧ c ≤ 1 then
        .ok ⟨s, c, p, re⟩
      else
        .error "Input should be less than or equal to 1"
  | _, _, _, _ => .error "Field required"

/-- A reply violates the declared `AnaliseTexto` schema when a required field
is missing or `confianca` lies outside `[0, 1]`. -/
def AnaliseReply.violatesSchema (r : AnaliseReply) : Prop :=
  r.sentimento = none ∨ r.confianca = none ∨ r.palavras_chave = none ∨
  r.resumo = none ∨ (∃ c, r.confianca = some c ∧ ¬ (0 ≤ c ∧ c ≤ 1))

instance (r : AnaliseReply) : Decidable r.violatesSchema := by
  unfold AnaliseReply.violatesSchema
  have : Decidable (∃ c, r.confianca = some c ∧ ¬ (0 ≤ c ∧ c ≤ 1)) := by
    cases h : r.confianca with
    | none => exact .isFalse (by simp [h])
    | some c => exact decidable_of_iff (¬ (0 ≤ c ∧ c ≤ 1)) (by simp [h])
  exact inferInstance

/-! ### `SimpleOutputParser.parse_sentiment`
(`learning/02_advanced/output_parsers/simple_output_parsers.py`, lines 128-150)

The local (LLM-free) sentiment parser.  Its confidence formula is
`min(0.95, max(0.6, total_sentiment_words * 0.2))`. -/

/-- `min(0.95, max(0.6, total_sentiment_words * 0.2))` over rationals. -/
def sentimentConfidence (total_sentiment_words : ℕ) : ℚ :=
  min (95/100) (max (60/100) (total_sentiment_words * (2/10)))

/-- `SimpleOutputParser.parse_sentiment`: keyword scans over the lowercased
text, then construction of a `SentimentAnalysis` record via the validating
pydantic constructor. -/
def parse_sentiment (text : String) : Except String SentimentAnalysis :=
  let lower := pyLower text
  let is_positive :=
    (["adorei", "perfeito", "excelente", "ótimo"]).any (fun w => strContains lower w)
  let is_negative :=
    (["quebrado", "urgente", "problema", "ruim"]).any (fun w => strContains lower w)
  let is_neutral := !(is_positive || is_negative)
  let contains_urgency :=
    (["urgente", "imediatamente", "agora"]).any (fun w => strContains lower w)
  let positive_words :=
    ((pySplit lower).filter
      (fun w => (["adorei", "perfeito", "excelente"]).contains w)).length
  let negative_words :=
    ((pySplit lower).filter
      (fun w => (["quebrado", "problema", "ruim"]).contains w)).length
  let total_sentiment_words := positive_words + negative_words
  let confidence := sentimentConfidence total_sentiment_words
  SentimentAnalysis.validate
    ⟨some text, some is_positive, some is_negative, some is_neutral,
      some contains_urgency, some confidence⟩

/-! ## `src/exemplo_simples_paralelo.py`

Three pure text statistics, run once through a fixed-size worker pool and
once sequentially.  The submitted functions are side-effect-free (their
`time.sleep` only delays, it does not affect values), so a future produced by
`ThreadPoolExecutor.submit` is modelled by the value its computation
deterministically produces, and `Future.result()` by projecting it. -/

/-- `contar_palavras`: `len(texto.split())`. -/
def contar_palavras (texto : String) : ℕ := (pySplit texto).length

/-- `contar_caracteres`: `len(texto)`. -/
def contar_caracteres (texto : String) : ℕ := texto.length

/-- `converter_maiusculo`: `texto.upper()`. -/
def converter_maiusculo (texto : String) : String := pyUpper texto

/-- A completed future of a side-effect-free computation. -/
structure Future (α : Type) where
  result : α
deriving Repr, DecidableEq

/-- `executor.submit(f, x)` for a pure `f`. -/
def submit {α β : Type} (f : α → β) (x : α) : Future β := ⟨f x⟩

/-- The result dictionary `{"palavras": ..., "caracteres": ..., "maiusculo": ...}`
with its three fixed keys. -/
structure ParallelResult where
  palavras : ℕ
  caracteres : ℕ
  maiusculo : String
deriving Repr, DecidableEq

/-- `executar_paralelo`: submit the three operations to the pool, then
collect the three results into the keyed dictionary. -/
def executar_paralelo (texto : String) : ParallelResult :=
  let future_palavras := submit contar_palavras texto
  let future_caracteres := submit contar_caracteres texto
  let future_maiusculo := submit converter_maiusculo texto
  { palavras := future_palavras.result
    caracteres := future_caracteres.result
    maiusculo := future_maiusculo.result }

/-- `executar_sequencial`: run the three operations one after the other. -/
def executar_sequencial (texto : String) : ParallelResult :=
  { palavras := contar_palavras texto
    caracteres := contar_caracteres texto
    maiusculo := converter_maiusculo texto }

/-! ## `Asimov_Academy/LCEL_small_projects/country_capital_proj`

The `ResultadoFinal` pydantic model and the console formatter
`utils/formatter.py::format_result`. -/

/-- The `ResultadoFinal` record (`models.py`). -/
structure ResultadoFinal where
  pais : String
  capital : String
  curiosidade : String
deriving Repr, DecidableEq

/-- `format_result`: renders a `ResultadoFinal` for console display. -/
def format_result (result : ResultadoFinal) : String :=
  "\n📌 Resultado Final:\n" ++
  "País       : " ++ result.pais ++ "\n" ++
  "Capital    : " ++ result.capital ++ "\n" ++
  "Curiosidade: " ++ result.curiosidade ++ "\n"

/-! ## Step composition

Modelled from the spec: the "step composer" feeds the output of one
formatting step into the template of the next.  The composition operator
itself is the third-party orchestration library's runnable pipe, which is not
part of this repository's sources, so sequential composition of two
formatting steps is modelled from the spec's words as plain function
composition of string-to-string steps. -/

/-- Modelled from the spec: sequential composition of two formatting steps —
the output of step `f` becomes the input of step `g`. -/
def composeSteps (f g : String → String) : String → String :=
  fun x => g (f x)

/-! ## `projects/sentiment_analyzer/src/analisador_de_sentimento.py`: settings
and the `main` entry point

The environment (process variables merged with the `.env` file) is an
association list.  `AppSettings` requires `OPENAI_API_KEY`; pydantic-settings
raises a `ValidationError` (a subclass of `ValueError`, hence caught by
`main`'s `except ValueError`) when it is absent.  `main` is embedded as the
trace of observable actions it performs; the model reply that the chain
would produce over the network is a parameter. -/

/-- The environment seen by pydantic-settings: process environment variables
merged with the `.env` file. -/
def Env : Type := List (String × String)

/-- Environment variable lookup. -/
def Env.get (env : Env) (key : String) : Option String := List.lookup key env

/-- The `AppSettings` pydantic-settings model. -/
structure AppSettings where
  OPENAI_API_KEY : String
  LANGCHAIN_TRACING_V2 : String
deriving Repr, DecidableEq

/-- Construction of `AppSettings` from the environment: `OPENAI_API_KEY` is
required (missing it raises a validation error), `LANGCHAIN_TRACING_V2`
defaults to `"false"`. -/
def AppSettings.load (env : Env) : Except String AppSettings :=
  match env.get "OPENAI_API_KEY" with
  | none => .error "Field required: OPENAI_API_KEY"
  | some key => .ok ⟨key, (env.get "LANGCHAIN_TRACING_V2").getD "false"⟩

namespace AnalisadorSentimento

/-- Observable actions of `analisador_de_sentimento.py::main`.  The final
result display (four prints of the record's fields) is the single
`printedResult` event carrying the record; console text rendering carries no
logic. -/
inductive MainEvent where
  | printed (s : String)
  | envSet (key value : String)
  | constructedClient (model : String) (temperature : ℚ)
  | networkCall
  | printedResult (resultado : AnaliseTexto)
  | returned
deriving Repr, DecidableEq

/-- The hard-coded input text of the script. -/
def texto_para_analisar : String :=
  "Estou absolutamente encantado com este produto! A qualidade superou todas " ++
  "as minhas expectativas. O atendimento ao cliente foi excepcional, e a " ++
  "entrega foi mais rápida do que o prometido. Recomendo fortemente para " ++
  "qualquer pessoa que esteja considerando esta compra. Definitivamente " ++
  "comprarei novamente!"

/-- Python `s[:n]`. -/
def pyTake (n : ℕ) (s : String) : String := ⟨s.toList.take n⟩

/-- `main`: loads settings; on a configuration error prints two messages and
returns; otherwise constructs the model client, invokes the chain over the
network (`chainResult` stands for the reply), and prints the analysis. -/
def main (env : Env) (chainResult : AnaliseTexto) : List MainEvent :=
  .printed "🚀 Iniciando análise de texto..." ::
  match AppSettings.load env with
  | .error e =>
      [ .printed ("❌ Erro de Configuração: " ++ e),
        .printed ("Certifique-se de que seu arquivo .env existe no mesmo " ++
          "diretório e contém a \x27OPENAI_API_KEY\x27."),
        .returned ]
  | .ok settings =>
      [ .envSet "LANGCHAIN_TRACING_V2" settings.LANGCHAIN_TRACING_V2,
        .constructedClient "gpt-4o-mini" (2/10),
        .printed ("\n📝 Texto a ser analisado:\n---" ++
          (pyTake 100 texto_para_analisar).trim ++ "...\n"),
        .networkCall,
        .printedResult chainResult,
        .returned ]

end AnalisadorSentimento

/-! ## LangGraph machinery

A compiled `StateGraph` over a state type `σ`: named nodes with their state
transformers, an entry point, and per-node outgoing edges.  Conditional
edges read the state produced by the node just run.  A node transformer
returns `Except`: a raised Python exception propagates and aborts the run.
A `none` destination models a routing failure (a router exception or a
branch value missing from the conditional mapping). -/

/-- A LangGraph destination: a named node or the `END` sentinel. -/
inductive Dest where
  | node (name : String)
  | END
deriving Repr, DecidableEq

/-- A compiled `StateGraph`.  `conditionalSources` records which nodes (or
`"__start__"` for a conditional entry point) route through a conditional
edge, exactly as declared by `add_conditional_edges` /
`set_conditional_entry_point` in the source. -/
structure CompiledGraph (σ : Type) where
  nodeNames : List String
  nodeFn : String → Option (σ → Except String σ)
  entry : σ → Option Dest
  edges : String → σ → Option Dest
  conditionalSources : List String

/-- Outcome of running a compiled graph: reached `END` with the visited node
list, aborted by an exception raised inside a node, or stuck (routing
failure or out of fuel). -/
inductive Outcome (σ : Type) where
  | finished (visited : List String) (finalState : σ)
  | raised (visited : List String) (err : String)
  | stuck (visited : List String)
deriving Repr

/-- One-destination-at-a-time execution with fuel, accumulating the visited
node list (in reverse). -/
def runFrom {σ : Type} (g : CompiledGraph σ) :
    ℕ → Option Dest → σ → List String → Outcome σ
  | _, none, _, visited => .stuck visited.reverse
  | _, some .END, s, visited => .finished visited.reverse s
  | 0, some (.node _), _, visited => .stuck visited.reverse
  | fuel+1, some (.node n), s, visited =>
      match g.nodeFn n with
      | none => .stuck visited.reverse
      | some f =>
          match f s with
          | .error e => .raised ((n :: visited).reverse) e
          | .ok s2 => runFrom g fuel (g.edges n s2) s2 (n :: visited)

/-- Run a compiled graph from its entry point. -/
def CompiledGraph.run {σ : Type} (g : CompiledGraph σ) (fuel : ℕ) (s : σ) :
    Outcome σ :=
  runFrom g fuel (g.entry s) s []

/-! ## `projects/lg_router_exercise`

`state.py::State`, `nodes.py::reverse_node`, `upper_node`, `router`, and
`graph_builder.py::build_graph`. -/

namespace LgRouter

/-- `state.py::State`.  `action_type` is declared
`Literal["reverse", "upper"]`; it is kept here as the raw string together
with the predicate `validAction` that pydantic enforces at construction. -/
structure State where
  user_string : String
  action_type : String
  processed_string : String
deriving Repr, DecidableEq

/-- The pydantic `Literal["reverse", "upper"]` constraint on `action_type`. -/
def validAction (a : String) : Prop := a = "reverse" ∨ a = "upper"

instance (a : String) : Decidable (validAction a) := by
  unfold validAction
  exact inferInstance

/-- Pydantic construction of a `State`: rejects any `action_type` outside
the `Literal`, before the value can ever reach the router. -/
def State.validate (user_string action_type processed_string : String) :
    Except String State :=
  if validAction action_type then
    .ok ⟨user_string, action_type, processed_string⟩
  else
    .error "Input should be \x27reverse\x27 or \x27upper\x27"

/-- `nodes.py::reverse_node`: returns a dictionary with only the key
`processed_string`, holding the reversed input string. -/
def reverse_node (state : State) : List (String × String) :=
  [("processed_string", pyReverse state.user_string)]

/-- `nodes.py::upper_node`: returns a dictionary with only the key
`processed_string`, holding the uppercased input string. -/
def upper_node (state : State) : List (String × String) :=
  [("processed_string", pyUpper state.user_string)]

/-- `nodes.py::router`: conditional dispatch on `action_type`; raises
`ValueError("Ação desconhecida", action_type)` on any other value. -/
def router (state : State) : Except (String × String) String :=
  if state.action_type = "reverse" then .ok "reverse_node"
  else if state.action_type = "upper" then .ok "upper_node"
  else .error ("Ação desconhecida", state.action_type)

/-- LangGraph's merge of a node's update dictionary into the `State`: each
field takes the updated value when its key is present, otherwise it is
unchanged. -/
def applyUpdate (st : State) (upd : List (String × String)) : State where
  user_string := (List.lookup "user_string" upd).getD st.user_string
  action_type := (List.lookup "action_type" upd).getD st.action_type
  processed_string :=
    (List.lookup "processed_string" upd).getD st.processed_string

/-- What the source passes in the callable `path` position of
`set_conditional_entry_point`: either a genuine routing callable, or —
as `graph_builder.py` actually does, with the `router` argument commented
out and `router` not even imported there — the path-mapping dictionary
itself. -/
inductive EntryPathArg (σ : Type) where
  | callable (f : σ → Except (String × String) String)
  | dict (mapping : List (String × String))

/-- LangGraph's handling of the conditional-entry `path` argument: a
callable is used as the routing branch; a plain dictionary of strings
cannot be coerced to a runnable branch, and the call raises a `TypeError`
during graph construction. -/
def coerceEntryPath {σ : Type} :
    EntryPathArg σ → Except String (σ → Except (String × String) String)
  | .callable f => .ok f
  | .dict _ => .error "TypeError: the path argument is not callable"

/-- The two nodes `build_graph` registers with `add_node` before its
`set_conditional_entry_point` call. -/
def registeredNodeNames : List String := ["reverse_node", "upper_node"]

/-- `graph_builder.py::build_graph`: registers `reverse_node` and
`upper_node`, then calls `set_conditional_entry_point` with only the
mapping dictionary `{"reverse_node": "reverse_node", "upper_node":
"upper_node"}` in the callable `path` position (the `router` function is
commented out in that call and not imported in the file).  The dictionary
fails coercion to a routing callable, so the build raises a `TypeError`
there: the subsequent `add_edge` wiring to `END` and `compile()` never run
and no compiled graph is ever returned. -/
def build_graph : Except String (CompiledGraph State) := do
  let entryFn ← coerceEntryPath
    (EntryPathArg.dict
      [("reverse_node", "reverse_node"), ("upper_node", "upper_node")])
  return {
    nodeNames := registeredNodeNames
    nodeFn := fun n =>
      if n = "reverse_node" then
        some (fun st => .ok (applyUpdate st (reverse_node st)))
      else if n = "upper_node" then
        some (fun st => .ok (applyUpdate st (upper_node st)))
      else none
    entry := fun st =>
      match entryFn st with
      | .ok branch => some (.node branch)
      | .error _ => none
    edges := fun n _ =>
      if n = "reverse_node" then some .END
      else if n = "upper_node" then some .END
      else none
    conditionalSources := ["__start__"] }

end LgRouter

/-! ## `projects/assistent_questions_project`

`core/state.py::AgentState`, the three agent nodes, and
`graph/workflow.py`.  The replies the agent nodes obtain from the hosted
model are parameters (`llmEnhanced`, `llmAnswer`, `is_in_scope`): each node
is otherwise a pure function returning its update dictionary. -/

namespace AssistQ

/-- `core/state.py::AgentState` (a TypedDict with four string fields). -/
structure AgentState where
  original_question : String
  enhanced_question : String
  answer : String
  specialization : String
deriving Repr, DecidableEq

/-- LangGraph's merge of an update dictionary into the `AgentState`. -/
def applyUpdate (st : AgentState) (upd : List (String × String)) : AgentState where
  original_question :=
    (List.lookup "original_question" upd).getD st.original_question
  enhanced_question :=
    (List.lookup "enhanced_question" upd).getD st.enhanced_question
  answer := (List.lookup "answer" upd).getD st.answer
  specialization := (List.lookup "specialization" upd).getD st.specialization

/-- `graph/workflow.py::out_of_scope_node`: returns a dictionary with only
the key `answer`. -/
def out_of_scope_node (state : AgentState) : List (String × String) :=
  [("answer",
    "Desculpe, a pergunta aprimorada parece estar fora da minha área de " ++
    "especialização em \x27" ++ state.specialization ++
    "\x27. Por favor, faça uma pergunta relacionada ao tema.")]

/-- `agents/question_enhancer.py::enhance_question_node`: the structured
LLM reply's `enhanced_question` field is the parameter `llmEnhanced`; the
node returns a dictionary with only the key `enhanced_question`. -/
def enhance_question_node (llmEnhanced : AgentState → String)
    (state : AgentState) : List (String × String) :=
  [("enhanced_question", llmEnhanced state)]

/-- `agents/specialist_agent.py::specialist_node`: the LLM reply is the
parameter `llmAnswer`; the node returns a dictionary with only the key
`answer`. -/
def specialist_node (llmAnswer : AgentState → String)
    (state : AgentState) : List (String × String) :=
  [("answer", llmAnswer state)]

/-- `agents/knowledge_boundary.py::boundary_check_node`: maps the structured
LLM decision `is_in_scope` to the branch label `"in_scope"` or
`"out_of_scope"`. -/
def boundary_check_node (is_in_scope : AgentState → Bool)
    (state : AgentState) : String :=
  if is_in_scope state then "in_scope" else "out_of_scope"

/-- `graph/workflow.py`: three nodes, fixed entry at `enhancer`, one
conditional edge out of `enhancer` through `boundary_check_node` with the
mapping `{"in_scope": "specialist", "out_of_scope": "out_of_scope"}`, and
both terminal nodes wired to `END`. -/
def workflow (llmEnhanced llmAnswer : AgentState → String)
    (is_in_scope : AgentState → Bool) : CompiledGraph AgentState where
  nodeNames := ["enhancer", "specialist", "out_of_scope"]
  nodeFn := fun n =>
    if n = "enhancer" then
      some (fun st =>
        .ok (applyUpdate st (enhance_question_node llmEnhanced st)))
    else if n = "specialist" then
      some (fun st => .ok (applyUpdate st (specialist_node llmAnswer st)))
    else if n = "out_of_scope" then
      some (fun st => .ok (applyUpdate st (out_of_scope_node st)))
    else none
  entry := fun _ => some (.node "enhancer")
  edges := fun n st =>
    if n = "enhancer" then
      (List.lookup (boundary_check_node is_in_scope st)
        [("in_scope", "specialist"), ("out_of_scope", "out_of_scope")]).map
        Dest.node
    else if n = "specialist" then some .END
    else if n = "out_of_scope" then some .END
    else none
  conditionalSources := ["enhancer"]

end AssistQ

/-! ## `projects/agentstate_langgraph_linear_flow/simple_debugger_practice.py`

A two-node linear graph; the LLM replies of the two nodes are parameters. -/

namespace Debugger

/-- The script's `AgentState` TypedDict. -/
structure AgentState where
  original_question : String
  question_clarified : String
  answer : String
deriving Repr, DecidableEq

/-- LangGraph's merge of an update dictionary into the `AgentState`. -/
def applyUpdate (st : AgentState) (upd : List (String × String)) : AgentState where
  original_question :=
    (List.lookup "original_question" upd).getD st.original_question
  question_clarified :=
    (List.lookup "question_clarified" upd).getD st.question_clarified
  answer := (List.lookup "answer" upd).getD st.answer

/-- `reformulate_node`: returns a dictionary with only the key
`question_clarified` holding the LLM's reformulation. -/
def reformulate_node (llmReformulated : AgentState → String)
    (state : AgentState) : List (String × String) :=
  [("question_clarified", llmReformulated state)]

/-- `answer_node`: returns a dictionary with only the key `answer` holding
the LLM's reply. -/
def answer_node (llmAnswer : AgentState → String)
    (state : AgentState) : List (String × String) :=
  [("answer", llmAnswer state)]

/-- The workflow assembled in `main`: `reformulate → answer → END`, fixed
entry at `reformulate`, no conditional edges. -/
def buildWorkflow (llmReformulated llmAnswer : AgentState → String) :
    CompiledGraph AgentState where
  nodeNames := ["reformulate", "answer"]
  nodeFn := fun n =>
    if n = "reformulate" then
      some (fun st =>
        .ok (applyUpdate st (reformulate_node llmReformulated st)))
    else if n = "answer" then
      some (fun st => .ok (applyUpdate st (answer_node llmAnswer st)))
    else none
  entry := fun _ => some (.node "reformulate")
  edges := fun n _ =>
    if n = "reformulate" then some (.node "answer")
    else if n = "answer" then some .END
    else none
  conditionalSources := []

end Debugger

/-! ## `projects/agentstate_langgraph_linear_flow/question_assistant.py`

The hardened variant of the same two-node linear graph: its nodes validate
their inputs and raise `ValueError` on an empty question, and substitute
fallbacks for empty LLM replies.  An LLM invocation is a parameter of type
`AgentState → Except String String` (`.error` models a raised
`LangChainError`, which the node re-raises). -/

namespace QAssist

/-- The script's `AgentState` TypedDict. -/
structure AgentState where
  original_question : String
  question_clarified : String
  answer : String
deriving Repr, DecidableEq

/-- `ERROR_EMPTY_QUESTION`. -/
def ERROR_EMPTY_QUESTION : String := "A pergunta original não pode estar vazia."

/-- `ERROR_EMPTY_CLARIFIED_QUESTION`. -/
def ERROR_EMPTY_CLARIFIED_QUESTION : String :=
  "A pergunta clarificada não pode estar vazia."

/-- LangGraph's merge of an update dictionary into the `AgentState`. -/
def applyUpdate (st : AgentState) (upd : List (String × String)) : AgentState where
  original_question :=
    (List.lookup "original_question" upd).getD st.original_question
  question_clarified :=
    (List.lookup "question_clarified" upd).getD st.question_clarified
  answer := (List.lookup "answer" upd).getD st.answer

/-- `reformulate_node`: raises on an empty (stripped) original question,
re-raises an LLM failure, falls back to the original question when the LLM
reply strips to empty, and otherwise returns a dictionary with only the key
`question_clarified`. -/
def reformulate_node (llm : AgentState → Except String String)
    (state : AgentState) : Except String (List (String × String)) := do
  let original_question := state.original_question.trim
  if original_question = "" then
    throw ERROR_EMPTY_QUESTION
  let content ← llm state
  let reformulated := content.trim
  let reformulated :=
    if reformulated = "" then original_question else reformulated
  return [("question_clarified", reformulated)]

/-- `answer_node`: raises on an empty (stripped) clarified question,
re-raises an LLM failure, substitutes an apology when the LLM reply strips
to empty, and otherwise returns a dictionary with only the key `answer`. -/
def answer_node (llm : AgentState → Except String String)
    (state : AgentState) : Except String (List (String × String)) := do
  let reformulated_question := state.question_clarified.trim
  if reformulated_question = "" then
    throw ERROR_EMPTY_CLARIFIED_QUESTION
  let content ← llm state
  let answer := content.trim
  let answer :=
    if answer = "" then
      "Desculpe, não foi possível gerar uma resposta adequada."
    else answer
  return [("answer", answer)]

/-- `create_graph`: `reformulate → answer → END`, fixed entry at
`reformulate`, no conditional edges. -/
def create_graph (llmReformulate llmAnswer : AgentState → Except String String) :
    CompiledGraph AgentState where
  nodeNames := ["reformulate", "answer"]
  nodeFn := fun n =>
    if n = "reformulate" then
      some (fun st => (reformulate_node llmReformulate st).map (applyUpdate st))
    else if n = "answer" then
      some (fun st => (answer_node llmAnswer st).map (applyUpdate st))
    else none
  entry := fun _ => some (.node "reformulate")
  edges := fun n _ =>
    if n = "reformulate" then some (.node "answer")
    else if n = "answer" then some .END
    else none
  conditionalSources := []

end QAssist

/-! ## `learning/03_integration/databases/research_agent_notebook.py`

`ResearchAgentState`, the two pure routing functions and the graph built by
`create_research_agent`: six nodes, two conditional edges (each used without
a mapping, so the routing function's return value is the target node name),
and a `revision → reflect` back edge.  The six node bodies are LLM calls and
are a parameter. -/

namespace Research

/-- `ResearchAgentState` (TypedDict).  `messages` elements and the
`Dict[str, Any]` search results are modelled as strings and string
association lists; only presence/emptiness of `search_results` is ever read
by the routing functions. -/
structure ResearchAgentState where
  messages : List String
  research_query : String
  search_results : List (List (String × String))
  draft_response : String
  reflection : String
  final_response : String
  iteration_count : ℤ
  max_iterations : ℤ
  tools_used : List String
  confidence_score : ℚ
deriving Repr, DecidableEq

/-- `should_continue_research`: `"draft"` when there are search results,
else `"research"` (looping back to the same node). -/
def should_continue_research (state : ResearchAgentState) : String :=
  if state.search_results ≠ [] then "draft" else "research"

/-- `should_revise`: `"revision"` while confidence is below `7.0` and the
iteration budget is not exhausted, else `"finalize"`. -/
def should_revise (state : ResearchAgentState) : String :=
  if state.confidence_score < 7 ∧ state.iteration_count < state.max_iterations
  then "revision" else "finalize"

/-- The six node names registered by `create_research_agent`. -/
def researchAgentNodeNames : List String :=
  ["analyze_query", "research", "draft", "reflect", "revision", "finalize"]

/-- The edges wired by `create_research_agent`: a fixed
`analyze_query → research`, a conditional edge out of `research` via
`should_continue_research`, fixed `draft → reflect`, a conditional edge out
of `reflect` via `should_revise`, the back edge `revision → reflect`, and
`finalize → END`. -/
def researchAgentEdges (n : String) (st : ResearchAgentState) : Option Dest :=
  if n = "analyze_query" then some (.node "research")
  else if n = "research" then some (.node (should_continue_research st))
  else if n = "draft" then some (.node "reflect")
  else if n = "reflect" then some (.node (should_revise st))
  else if n = "revision" then some (.node "reflect")
  else if n = "finalize" then some .END
  else none

/-- `create_research_agent`, with the six LLM-backed node bodies supplied as
`nodeImpl`. -/
def create_research_agent
    (nodeImpl : String → ResearchAgentState → Except String ResearchAgentState) :
    CompiledGraph ResearchAgentState where
  nodeNames := researchAgentNodeNames
  nodeFn := fun n =>
    if n ∈ researchAgentNodeNames then some (nodeImpl n) else none
  entry := fun _ => some (.node "analyze_query")
  edges := researchAgentEdges
  conditionalSources := ["research", "reflect"]

end Research

/-! ## `projects/movie_project/main.py`

The records of `core/models.py`, `sanitize_filename`, and the `main`
entry point as a trace of observable actions.  The graph invocation
(`create_movie_analysis_graph().invoke({"genre": genre})`) is a network
action and is a parameter of type `Except String GraphResult`; the
`random.choice` sampling is the parameter `pick`.  Console rendering is
abstracted: print events carry the data being printed. -/

namespace MovieProj

/-- `core/models.py::MovieList`. -/
structure MovieList where
  movies : List String
deriving Repr, DecidableEq

/-- `core/models.py::MovieInfoData`. -/
structure MovieInfoData where
  title : String
  director : String
  main_actors : List String
  release_year : ℤ
  box_office_revenue : ℚ
  oscars_won : ℤ
deriving Repr, DecidableEq

/-- The state dictionary produced by the movie-analysis graph: the keys
`suggestion_result` and `detailed_results` read by `main`. -/
structure GraphResult where
  suggestion_result : MovieList
  detailed_results : List MovieInfoData
deriving Repr, DecidableEq

/-- Collapse each maximal whitespace run to a single `_`
(Python `re.sub(r"\s+", "_", text)`). -/
def collapseWs : List Char → List Char
  | [] => []
  | c :: rest =>
      if c.isWhitespace then
        '_' :: collapseWs (rest.dropWhile Char.isWhitespace)
      else
        c :: collapseWs rest
termination_by l => l.length
decreasing_by
  · exact Nat.lt_succ_of_le (List.dropWhile_suffix _).sublist.length_le
  · simp

/-- `main.py::sanitize_filename`: lowercase, collapse whitespace runs to
`_`, then drop every character outside `\w` and `-` (ASCII model:
alphanumerics, `_`, `-`). -/
def sanitize_filename (text : String) : String :=
  ⟨(collapseWs (pyLower text).toList).filter
    (fun c => c.isAlphanum || c = '_' || c = '-')⟩

/-- Observable actions of `main`. -/
inductive Event where
  | logInfo (s : String)
  | printedTitles (genre : String) (titles : List String)
  | printedSample (m : MovieInfoData)
  | printedDataFrame (rows : List MovieInfoData)
  | wroteFile (path : String)
  | logSuccess (s : String)
  | logException (s : String)
deriving Repr, DecidableEq

/-- `main.py::main`: inside the `try` block it builds the graph, invokes it,
prints the suggestions, and — when there are detailed results — prints a
random sample and a data frame and writes the two output files
(`settings.output_dir` defaults to the project's `data` directory); any
exception raised by the invocation is caught by the `except`, logged, and
`main` returns normally. -/
def main (genre : String) (invoke : Except String GraphResult)
    (pick : List MovieInfoData → MovieInfoData) : List Event :=
  Event.logInfo ("🚀 Iniciando a análise completa de filmes do gênero: \x27" ++
      genre ++ "\x27") ::
  Event.logInfo "Invocando o grafo com o LLM (isso pode levar um tempo)..." ::
  match invoke with
  | .error e => [.logException ("❌ Ocorreu um erro inesperado: " ++ e)]
  | .ok graph_result =>
      let suggested_movies := graph_result.suggestion_result.movies
      let detailed_results := graph_result.detailed_results
      Event.printedTitles genre suggested_movies ::
      (if detailed_results ≠ [] then
        let sample_movie := pick detailed_results
        let sanitized_genre := sanitize_filename genre
        let txt_filepath := "data/filmes_" ++ sanitized_genre ++ "_sugeridos.txt"
        let csv_filepath := "data/analise_" ++ sanitized_genre ++ "_detalhada.csv"
        [ .printedSample sample_movie,
          .printedDataFrame detailed_results,
          .wroteFile txt_filepath,
          .logInfo ("📝 Lista de sugestões salva em: " ++ txt_filepath),
          .wroteFile csv_filepath,
          .logInfo ("📊 Análise detalhada salva em: " ++ csv_filepath),
          .logSuccess "✅ Processo concluído com sucesso!" ]
      else
        [ .logSuccess "✅ Processo concluído com sucesso!" ])

end MovieProj

/-! # Theorems -/

/-- C1: for every model reply that violates the declared record schema (a
missing required field, or a confidence value outside `[0, 1]`, e.g. `1.5`),
constructing the typed output record (`SentimentAnalysis` from
`advanced_output_parsers.py`, `AnaliseTexto` from
`analisador_de_sentimento.py`) raises a validation error rather than
returning a record; and no malformed record is ever returned: every record
the decoder returns has its confidence within `[0, 1]`. -/
theorem C1_decoder_rejects_malformed :
    (∀ r : SentimentReply, r.violatesSchema →
        ∃ e, SentimentAnalysis.validate r = .error e) ∧
    (∀ (r : SentimentReply) (rec : SentimentAnalysis),
        SentimentAnalysis.validate r = .ok rec →
        0 ≤ rec.confidence_score ∧ rec.confidence_score ≤ 1) ∧
    (∀ r : AnaliseReply, r.violatesSchema →
        ∃ e, AnaliseTexto.validate r = .error e) ∧
    (∀ (r : AnaliseReply) (rec : AnaliseTexto),
        AnaliseTexto.validate r = .ok rec →
        0 ≤ rec.confianca ∧ rec.confianca ≤ 1) := by
  refine ⟨?_, ?_, ?_, ?_⟩
  · rintro ⟨_ | t, _ | p, _ | n, _ | u, _ | g, _ | c⟩ hv <;>
      try exact ⟨_, rfl⟩
    have hrange : ¬ (0 ≤ c ∧ c ≤ 1) := by
      rcases hv with h | h | h | h | h | h | ⟨c', hc, hout⟩ <;> simp_all
    refine ⟨"Confianca deve estar entre 0 e 1", ?_⟩
    simp only [SentimentAnalysis.validate]
    rw [if_neg hrange]
  · intro r rec h
    unfold SentimentAnalysis.validate at h
    split at h
    · split at h
      · rename_i hcond
        cases h
        exact hcond
      · cases h
    · cases h
  · rintro ⟨_ | s, _ | c, _ | p, _ | re⟩ hv <;>
      try exact ⟨_, rfl⟩
    have hrange : ¬ (0 ≤ c ∧ c ≤ 1) := by
      rcases hv with h | h | h | h | ⟨c', hc, hout⟩ <;> simp_all
    refine ⟨"Input should be less than or equal to 1", ?_⟩
    simp only [AnaliseTexto.validate]
    rw [if_neg hrange]
  · intro r rec h
    unfold AnaliseTexto.validate at h
    split at h
    · split at h
      · rename_i hcond
        cases h
        exact hcond
      · cases h
    · cases h

/-- C1 witness: a reply with an out-of-range confidence (`2`, outside
`[0, 1]` just like the spec's `1.5`) and a reply missing its required
`resumo` field are both rejected by the decoder. -/
theorem C1_decoder_rejects_malformed_witness :
    (∃ e, SentimentAnalysis.validate
      ⟨some "produto quebrado", some false, some true, some false, some false,
        some 2⟩ = .error e) ∧
    (∃ e, AnaliseTexto.validate
      ⟨some "negativo", some (1/2), some ["quebrado"], none⟩ = .error e) :=
  ⟨C1_decoder_rejects_malformed.1 _ (by decide),
    C1_decoder_rejects_malformed.2.2.1 _ (by decide)⟩

/-- C2: in every environment where `OPENAI_API_KEY` is absent, constructing
`AppSettings` raises at startup, and `main` returns after printing the
configuration error, before any model client is constructed or any network
call is attempted (no `constructedClient` and no `networkCall` event occurs
in its trace). -/
theorem C2_missing_credential_fails_fast (env : Env)
    (chainResult : AnaliseTexto) (h : env.get "OPENAI_API_KEY" = none) :
    (∃ e, AppSettings.load env = .error e) ∧
    AnalisadorSentimento.MainEvent.returned ∈
      AnalisadorSentimento.main env chainResult ∧
    (∀ model temperature,
      AnalisadorSentimento.MainEvent.constructedClient model temperature ∉
        AnalisadorSentimento.main env chainResult) ∧
    AnalisadorSentimento.MainEvent.networkCall ∉
      AnalisadorSentimento.main env chainResult := by
  have hload : AppSettings.load env = .error "Field required: OPENAI_API_KEY" := by
    unfold AppSettings.load
    rw [h]
  refine ⟨⟨_, hload⟩, ?_, ?_, ?_⟩
  · simp [AnalisadorSentimento.main, hload]
  · intro model temperature
    simp [AnalisadorSentimento.main, hload]
  · simp [AnalisadorSentimento.main, hload]

/-- C2 witness: the empty environment is missing `OPENAI_API_KEY`; settings
construction errs and `main`'s trace returns with no client construction and
no network call. -/
theorem C2_missing_credential_fails_fast_witness :
    (∃ e, AppSettings.load ([] : Env) = .error e) ∧
    AnalisadorSentimento.MainEvent.returned ∈
      AnalisadorSentimento.main ([] : Env) ⟨"positivo", 1, ["ótimo"], "resumo"⟩ ∧
    (∀ model temperature,
      AnalisadorSentimento.MainEvent.constructedClient model temperature ∉
        AnalisadorSentimento.main ([] : Env) ⟨"positivo", 1, ["ótimo"], "resumo"⟩) ∧
    AnalisadorSentimento.MainEvent.networkCall ∉
      AnalisadorSentimento.main ([] : Env) ⟨"positivo", 1, ["ótimo"], "resumo"⟩ :=
  C2_missing_credential_fails_fast ([] : Env)
    ⟨"positivo", 1, ["ótimo"], "resumo"⟩ rfl

/-- The parser's confidence formula is bounded below by `0`. -/
theorem sentimentConfidence_nonneg (n : ℕ) : 0 ≤ sentimentConfidence n := by
  unfold sentimentConfidence
  apply le_min
  · norm_num
  · exact le_trans (by norm_num) (le_max_left _ _)

/-- The parser's confidence formula is bounded above by `1`. -/
theorem sentimentConfidence_le_one (n : ℕ) : sentimentConfidence n ≤ 1 :=
  le_trans (min_le_left _ _) (by norm_num)

/-- C3: the confidence value `min(0.95, max(0.6, total_sentiment_words * 0.2))`
computed by the local sentiment parser lies within `[0, 1]` for every count,
and consequently for every input text `parse_sentiment` successfully
constructs a record whose `confidence_score` lies within `[0, 1]`. -/
theorem C3_parse_sentiment_confidence_in_range :
    (∀ total_sentiment_words : ℕ,
        0 ≤ sentimentConfidence total_sentiment_words ∧
        sentimentConfidence total_sentiment_words ≤ 1) ∧
    (∀ text : String, ∃ rec : SentimentAnalysis,
        parse_sentiment text = .ok rec ∧
        0 ≤ rec.confidence_score ∧ rec.confidence_score ≤ 1) := by
  refine ⟨fun n => ⟨sentimentConfidence_nonneg n, sentimentConfidence_le_one n⟩,
    fun text => ?_⟩
  simp only [parse_sentiment, SentimentAnalysis.validate]
  rw [if_pos ⟨sentimentConfidence_nonneg _, sentimentConfidence_le_one _⟩]
  exact ⟨_, rfl, sentimentConfidence_nonneg _, sentimentConfidence_le_one _⟩

/-- C4: for every input string, running the three independent pure functions
(word count, character count, uppercase conversion) through the fixed-size
worker pool produces exactly the same result dictionary — same keys, same
values — as running them sequentially. -/
theorem C4_executar_paralelo_eq_sequencial (texto : String) :
    executar_paralelo texto = executar_sequencial texto := rfl

/-- C6: the result-formatting step is deterministic — two invocations of
`format_result` on equal `ResultadoFinal` values yield the identical output
string. -/
theorem C6_format_result_deterministic (r1 r2 : ResultadoFinal)
    (h : r1 = r2) : format_result r1 = format_result r2 := by rw [h]

/-- C6 witness: two invocations of `format_result` on the same concrete
record yield the same string. -/
theorem C6_format_result_deterministic_witness :
    format_result ⟨"Brasil", "Brasília", "Brasília foi inaugurada em 1960."⟩ =
    format_result ⟨"Brasil", "Brasília", "Brasília foi inaugurada em 1960."⟩ :=
  C6_format_result_deterministic _ _ rfl

/-- C8: composition of independent formatting steps through the step
composer is associative — for every three steps and every input, composing
`(f then g) then h` equals composing `f then (g then h)`. -/
theorem C8_composeSteps_assoc (f g h : String → String) (x : String) :
    composeSteps (composeSteps f g) h x =
    composeSteps f (composeSteps g h) x := rfl

/-- C9: the router is total on valid states — it returns `"reverse_node"`
for `action_type = "reverse"`, `"upper_node"` for `action_type = "upper"`,
and under the `Literal["reverse", "upper"]` precondition enforced by the
`State` model, its `ValueError` branch is unreachable. -/
theorem C9_router_total (st : LgRouter.State) :
    (st.action_type = "reverse" → LgRouter.router st = .ok "reverse_node") ∧
    (st.action_type = "upper" → LgRouter.router st = .ok "upper_node") ∧
    (LgRouter.validAction st.action_type →
      ∀ e, LgRouter.router st ≠ .error e) := by
  refine ⟨?_, ?_, ?_⟩
  · intro h
    simp [LgRouter.router, h]
  · intro h
    simp [LgRouter.router, h]
  · rintro (h | h) e <;> simp [LgRouter.router, h]

/-- C9 witness: on concrete valid states the router picks the matching node
and raises nothing. -/
theorem C9_router_total_witness :
    LgRouter.router ⟨"hello world", "reverse", ""⟩ = .ok "reverse_node" ∧
    LgRouter.router ⟨"hello world", "upper", ""⟩ = .ok "upper_node" ∧
    ∀ e, LgRouter.router ⟨"hello world", "upper", ""⟩ ≠ .error e :=
  ⟨(C9_router_total ⟨"hello world", "reverse", ""⟩).1 rfl,
   (C9_router_total ⟨"hello world", "upper", ""⟩).2.1 rfl,
   (C9_router_total ⟨"hello world", "upper", ""⟩).2.2 (Or.inr rfl)⟩

/-- C10: every graph node returns a state update touching only its
designated output field — `reverse_node` and `upper_node` return
dictionaries whose only key is `processed_string` (so `user_string` and
`action_type` are unchanged after the LangGraph merge), and
`out_of_scope_node` returns a dictionary whose only key is `answer` (so the
other three `AgentState` fields are unchanged). -/
theorem C10_nodes_touch_only_their_field (st : LgRouter.State)
    (ast : AssistQ.AgentState) :
    (LgRouter.reverse_node st).map Prod.fst = ["processed_string"] ∧
    (LgRouter.upper_node st).map Prod.fst = ["processed_string"] ∧
    (LgRouter.applyUpdate st (LgRouter.reverse_node st)).user_string =
      st.user_string ∧
    (LgRouter.applyUpdate st (LgRouter.reverse_node st)).action_type =
      st.action_type ∧
    (LgRouter.applyUpdate st (LgRouter.upper_node st)).user_string =
      st.user_string ∧
    (LgRouter.applyUpdate st (LgRouter.upper_node st)).action_type =
      st.action_type ∧
    (AssistQ.out_of_scope_node ast).map Prod.fst = ["answer"] ∧
    (AssistQ.applyUpdate ast (AssistQ.out_of_scope_node ast)).original_question =
      ast.original_question ∧
    (AssistQ.applyUpdate ast (AssistQ.out_of_scope_node ast)).enhanced_question =
      ast.enhanced_question ∧
    (AssistQ.applyUpdate ast (AssistQ.out_of_scope_node ast)).specialization =
      ast.specialization :=
  ⟨rfl, rfl, rfl, rfl, rfl, rfl, rfl, rfl, rfl, rfl⟩

/-- C7: for every failure raised inside the movie pipeline invocation,
`main` catches the exception, logs it to the console, and returns normally
with exactly the startup logs plus the exception log — in particular no
output file is written for that run. -/
theorem C7_model_call_failure_caught (genre e : String)
    (pick : List MovieProj.MovieInfoData → MovieProj.MovieInfoData) :
    MovieProj.main genre (.error e) pick =
      [.logInfo ("🚀 Iniciando a análise completa de filmes do gênero: \x27" ++
          genre ++ "\x27"),
       .logInfo "Invocando o grafo com o LLM (isso pode levar um tempo)...",
       .logException ("❌ Ocorreu um erro inesperado: " ++ e)] ∧
    (∀ path, MovieProj.Event.wroteFile path ∉
        MovieProj.main genre (.error e) pick) := by
  constructor
  · rfl
  · intro path
    simp [MovieProj.main]

/-- C5 counterexample: the research agent graph built in
`learning/03_integration/databases/research_agent_notebook.py` has six
processing nodes — outside the claimed 2–4 range — and a cyclic topology:
from `reflect`, a low-confidence state (confidence `5 < 7.0`, iteration `1`
of max `2`) routes to `revision`, whose fixed edge returns to `reflect`
(and `research` likewise routes back to itself while `search_results` is
empty). -/
theorem C5_counterexample_research_graph :
    Research.researchAgentNodeNames.length = 6 ∧
    ¬ (2 ≤ Research.researchAgentNodeNames.length ∧
        Research.researchAgentNodeNames.length ≤ 4) ∧
    (Research.create_research_agent
      (fun _ s => Except.ok s)).nodeNames.length = 6 ∧
    Research.researchAgentEdges "reflect"
      ⟨[], "q", [], "d", "r", "", 1, 2, [], 5⟩ = some (.node "revision") ∧
    Research.researchAgentEdges "revision"
      ⟨[], "q", [], "d", "r", "", 1, 2, [], 5⟩ = some (.node "reflect") ∧
    Research.researchAgentEdges "research"
      ⟨[], "q", [], "d", "r", "", 1, 2, [], 5⟩ = some (.node "research") := by
  exact ⟨rfl, by decide, rfl, rfl, rfl, rfl⟩

/-- C5 (amended): setting the research agent notebook graph aside, the
repository's workflow graph builds are: `lg_router_exercise`'s
`build_graph`, which registers its 2 processing nodes (within the 2–4
bound) but passes the path-mapping dictionary in the callable position of
`set_conditional_entry_point` and therefore raises a `TypeError` instead of
returning a compiled graph — so no execution of that graph ever exists —
and the `assistent_questions_project` workflow together with the two linear
graphs of `agentstate_langgraph_linear_flow`, each with between 2 and 4
processing nodes, at most one conditional branch point, and an acyclic
single-branch topology: every execution visits each node at most once along
one of the explicitly enumerated duplicate-free paths and reaches `END`,
except that a `question_assistant.py` node may raise, aborting the run
after a duplicate-free prefix; no execution ever revisits a node. -/
theorem C5_amended_graph_topologies :
    (2 ≤ LgRouter.registeredNodeNames.length ∧
      LgRouter.registeredNodeNames.length ≤ 4 ∧
      (∃ e, LgRouter.build_graph = .error e)) ∧
    (∀ llmEnhanced llmAnswer : AssistQ.AgentState → String,
      ∀ is_in_scope : AssistQ.AgentState → Bool,
      2 ≤ (AssistQ.workflow llmEnhanced llmAnswer is_in_scope).nodeNames.length ∧
      (AssistQ.workflow llmEnhanced llmAnswer is_in_scope).nodeNames.length ≤ 4 ∧
      (AssistQ.workflow llmEnhanced llmAnswer
        is_in_scope).conditionalSources.length ≤ 1 ∧
      (["enhancer", "specialist"] : List String).Nodup ∧
      (["enhancer", "out_of_scope"] : List String).Nodup ∧
      ∀ st : AssistQ.AgentState,
        (∃ s2, (AssistQ.workflow llmEnhanced llmAnswer is_in_scope).run 10 st =
            .finished ["enhancer", "specialist"] s2) ∨
        (∃ s2, (AssistQ.workflow llmEnhanced llmAnswer is_in_scope).run 10 st =
            .finished ["enhancer", "out_of_scope"] s2)) ∧
    (∀ llmReformulated llmAnswer : Debugger.AgentState → String,
      2 ≤ (Debugger.buildWorkflow llmReformulated llmAnswer).nodeNames.length ∧
      (Debugger.buildWorkflow llmReformulated llmAnswer).nodeNames.length ≤ 4 ∧
      (Debugger.buildWorkflow llmReformulated
        llmAnswer).conditionalSources.length ≤ 1 ∧
      (["reformulate", "answer"] : List String).Nodup ∧
      ∀ st : Debugger.AgentState,
        ∃ s2, (Debugger.buildWorkflow llmReformulated llmAnswer).run 10 st =
          .finished ["reformulate", "answer"] s2) ∧
    (∀ llmReformulate llmAnswer : QAssist.AgentState → Except String String,
      2 ≤ (QAssist.create_graph llmReformulate llmAnswer).nodeNames.length ∧
      (QAssist.create_graph llmReformulate llmAnswer).nodeNames.length ≤ 4 ∧
      (QAssist.create_graph llmReformulate
        llmAnswer).conditionalSources.length ≤ 1 ∧
      (["reformulate", "answer"] : List String).Nodup ∧
      ∀ st : QAssist.AgentState,
        (∃ s2, (QAssist.create_graph llmReformulate llmAnswer).run 10 st =
            .finished ["reformulate", "answer"] s2) ∨
        (∃ e, (QAssist.create_graph llmReformulate llmAnswer).run 10 st =
            .raised ["reformulate"] e) ∨
        (∃ e, (QAssist.create_graph llmReformulate llmAnswer).run 10 st =
            .raised ["reformulate", "answer"] e)) := by
  refine ⟨⟨by decide, by decide, ⟨_, rfl⟩⟩, ?_, ?_, ?_⟩
  · intro llmE llmA isS
    refine ⟨by simp [AssistQ.workflow], by simp [AssistQ.workflow],
      by simp [AssistQ.workflow], by decide, by decide, ?_⟩
    intro st
    cases h2 : isS (AssistQ.applyUpdate st (AssistQ.enhance_question_node llmE st))
    · have hrun : (AssistQ.workflow llmE llmA isS).run 10 st =
          .finished ["enhancer", "out_of_scope"]
            (AssistQ.applyUpdate
              (AssistQ.applyUpdate st (AssistQ.enhance_question_node llmE st))
              (AssistQ.out_of_scope_node
                (AssistQ.applyUpdate st
                  (AssistQ.enhance_question_node llmE st)))) := by
        simp [CompiledGraph.run, runFrom, AssistQ.workflow,
          AssistQ.boundary_check_node, h2]
      exact Or.inr ⟨_, hrun⟩
    · have hrun : (AssistQ.workflow llmE llmA isS).run 10 st =
          .finished ["enhancer", "specialist"]
            (AssistQ.applyUpdate
              (AssistQ.applyUpdate st (AssistQ.enhance_question_node llmE st))
              (AssistQ.specialist_node llmA
                (AssistQ.applyUpdate st
                  (AssistQ.enhance_question_node llmE st)))) := by
        simp [CompiledGraph.run, runFrom, AssistQ.workflow,
          AssistQ.boundary_check_node, h2]
      exact Or.inl ⟨_, hrun⟩
  · intro llmR llmA
    refine ⟨by simp [Debugger.buildWorkflow], by simp [Debugger.buildWorkflow],
      by simp [Debugger.buildWorkflow], by decide, ?_⟩
    intro st
    have hrun : (Debugger.buildWorkflow llmR llmA).run 10 st =
        .finished ["reformulate", "answer"]
          (Debugger.applyUpdate
            (Debugger.applyUpdate st (Debugger.reformulate_node llmR st))
            (Debugger.answer_node llmA
              (Debugger.applyUpdate st (Debugger.reformulate_node llmR st)))) := by
      simp [CompiledGraph.run, runFrom, Debugger.buildWorkflow]
    exact ⟨_, hrun⟩
  · intro llmR llmA
    refine ⟨by simp [QAssist.create_graph], by simp [QAssist.create_graph],
      by simp [QAssist.create_graph], by decide, ?_⟩
    intro st
    cases hr : QAssist.reformulate_node llmR st with
    | error e =>
        have hrun : (QAssist.create_graph llmR llmA).run 10 st =
            .raised ["reformulate"] e := by
          simp [CompiledGraph.run, runFrom, QAssist.create_graph, Except.map, hr]
        exact Or.inr (Or.inl ⟨_, hrun⟩)
    | ok upd =>
        cases ha : QAssist.answer_node llmA (QAssist.applyUpdate st upd) with
        | error e =>
            have hrun : (QAssist.create_graph llmR llmA).run 10 st =
                .raised ["reformulate", "answer"] e := by
              simp [CompiledGraph.run, runFrom, QAssist.create_graph, Except.map, hr, ha]
            exact Or.inr (Or.inr ⟨_, hrun⟩)
        | ok upd2 =>
            have hrun : (QAssist.create_graph llmR llmA).run 10 st =
                .finished ["reformulate", "answer"]
                  (QAssist.applyUpdate (QAssist.applyUpdate st upd) upd2) := by
              simp [CompiledGraph.run, runFrom, QAssist.create_graph, Except.map, hr, ha]
            exact Or.inl ⟨_, hrun⟩

end StudyLangchain
